import Mathlib

/-!
Shallow embedding of the WhatsApp relay bot (src/bot.js) and proofs about its
response-resolution pipeline.

The mutable external world of the program (the two MongoDB collections, the
wall clock, the winston log and the outgoing replies) is modelled as an
explicit state `St` threaded through every function.  Each MongoDB or OpenAI
call is a step that records an observable `Event` and may fail (storage calls
consult `Env.storageOk`, the OpenAI call consults `Env.llm`).  A rejected
`await` in the JavaScript aborts the enclosing async function, which is
modelled by the `Except Unit` result: once a storage step fails every caller
returns `.error ()` without performing further steps.
-/

deriving instance DecidableEq for Except

namespace Bot

/-- JavaScript `s.toLowerCase()`, modelled characterwise (the inputs the bot
compares are ASCII). -/
def jsToLower (s : String) : String :=
  ⟨s.data.map Char.toLower⟩

/-- JavaScript `s.trim()`: strip leading and trailing whitespace. -/
def jsTrim (s : String) : String :=
  ⟨((s.data.dropWhile Char.isWhitespace).reverse.dropWhile Char.isWhitespace).reverse⟩

/-- The `role` field of a stored conversation turn: Human or Bot. -/
inductive Role where
  | Human : Role
  | Bot : Role
deriving DecidableEq

/-- String form of a role, as interpolated into the formatted history line. -/
def Role.str : Role → String
  | .Human => "Human"
  | .Bot => "Bot"

/-- One element of the `history` array pushed by `updateConversationHistory`
(bot.js line 110): a message, a role and a timestamp.  Wall-clock
instants are modelled by a monotone counter. -/
structure Turn where
  message : String
  role : Role
  timestamp : Nat
deriving DecidableEq

/-- A document of the `users` collection, as created by `getUserProfile`
(bot.js line 101).  `preferences` is an empty string map at creation and is
never written afterwards, so a list of pairs suffices. -/
structure Profile where
  sender : String
  preferences : List (String × String)
  favoriteResponses : List String
  conversationHistory : List Turn
deriving DecidableEq

/-- A document of the `conversations` collection: keyed by `sender`, holding
the `history` array of turns. -/
structure Conv where
  sender : String
  history : List Turn
deriving DecidableEq

/-- Observable events of one run: store calls, the OpenAI call, the outgoing
`msg.reply`, and winston log lines. -/
inductive Event where
  | pushTurn : String → String → Role → Event
  | findUser : String → Event
  | insertUser : String → Event
  | findConv : String → Event
  | llmCall : String → Event
  | reply : String → String → Event
  | logInfo : String → Event
  | logError : String → Event
deriving DecidableEq

/-- The external world threaded through the embedded program: the two
collections, the event trace, a counter of storage calls made so far and the
clock used for timestamps. -/
structure St where
  users : List Profile
  conversations : List Conv
  trace : List Event
  opCount : Nat
  clock : Nat
deriving DecidableEq

/-- The empty world: both collections empty, nothing logged yet. -/
def St.init : St := ⟨[], [], [], 0, 0⟩

/-- Environment choices the program cannot control: whether the n-th storage
call succeeds, and what the OpenAI API returns for a given prompt
(`.error` covering timeouts, auth failures, rate limits and malformed
responses alike). -/
structure Env where
  storageOk : Nat → Bool
  llm : String → Except String String

/-- Record one observable event. -/
def record (st : St) (e : Event) : St :=
  { st with trace := st.trace ++ [e] }

/-- One storage round-trip: consumes one `opCount` tick and reports whether
this call succeeded. -/
def storageStep (env : Env) (st : St) : Bool × St :=
  (env.storageOk st.opCount, { st with opCount := st.opCount + 1 })

/-- MongoDB findOne by sender on the `users` collection: first document
whose `sender` field matches. -/
def findOneUser : List Profile → String → Option Profile
  | [], _ => none
  | u :: us, s => if u.sender == s then some u else findOneUser us s

/-- MongoDB findOne by sender on the `conversations` collection. -/
def findOneConv : List Conv → String → Option Conv
  | [], _ => none
  | c :: cs, s => if c.sender == s then some c else findOneConv cs s

/-- MongoDB updateOne with a push modifier and upsert, keyed by sender:
appends the turn to the first matching document, or inserts a fresh document
when none matches. -/
def pushTurnConv : List Conv → String → Turn → List Conv
  | [], s, t => [⟨s, [t]⟩]
  | c :: cs, s, t =>
      if c.sender == s then { c with history := c.history ++ [t] } :: cs
      else c :: pushTurnConv cs s t

/-- The fresh profile document built by `getUserProfile` (bot.js line 101). -/
def newProfile (sender : String) : Profile :=
  ⟨sender, [], [], []⟩

/-- Embeds `getUserProfile` (bot.js lines 98-105): `findOne`, and on a miss
`insertOne` of a fresh profile; the inserted (or found) profile is returned. -/
def getUserProfile (env : Env) (sender : String) (st : St) : Except Unit Profile × St :=
  let st := record st (.findUser sender)
  match storageStep env st with
  | (false, st) => (.error (), st)
  | (true, st) =>
    match findOneUser st.users sender with
    | some u => (.ok u, st)
    | none =>
      let st := record st (.insertUser sender)
      match storageStep env st with
      | (false, st) => (.error (), st)
      | (true, st) => (.ok (newProfile sender), { st with users := st.users ++ [newProfile sender] })

/-- Embeds `updateConversationHistory` (bot.js lines 107-113): one upsert
push of one turn document onto the history of the sender. -/
def updateConversationHistory (env : Env) (sender message : String) (role : Role) (st : St) :
    Except Unit Unit × St :=
  let st := record st (.pushTurn sender message role)
  match storageStep env st with
  | (false, st) => (.error (), st)
  | (true, st) =>
      (.ok (), { st with
        conversations := pushTurnConv st.conversations sender ⟨message, role, st.clock⟩,
        clock := st.clock + 1 })

/-- The role, a colon and the message, as formatted at bot.js line 118. -/
def fmtTurn (t : Turn) : String :=
  t.role.str ++ ": " ++ t.message

/-- Embeds `getConversationHistory` (bot.js lines 115-121): `findOne`, then
`history.slice(-20).map(...)`; `[]` when no document exists.  JavaScript
`slice(-20)` keeps the last `min(20, length)` elements, i.e. drops
`length - 20` (truncated at 0) from the front. -/
def getConversationHistory (env : Env) (sender : String) (st : St) :
    Except Unit (List String) × St :=
  let st := record st (.findConv sender)
  match storageStep env st with
  | (false, st) => (.error (), st)
  | (true, st) =>
    match findOneConv st.conversations sender with
    | some c => (.ok ((c.history.drop (c.history.length - 20)).map fmtTurn), st)
    | none => (.ok [], st)

/-- JavaScript `haystack.includes(pat)` on the underlying character lists. -/
def includesAux (pat : List Char) : List Char → Bool
  | [] => pat.isEmpty
  | c :: rest => pat.isPrefixOf (c :: rest) || includesAux pat rest

/-- JavaScript `s.includes(pat)`: substring containment. -/
def strIncludes (s pat : String) : Bool :=
  includesAux pat.data s.data

/-- The fixed greeting reply (bot.js line 131). -/
def greetingReply : String := "Hello! How can I assist you today? 😊"

/-- The fixed self-identification reply (bot.js line 138). -/
def whoReply : String :=
  "I\x27m a bot created by Patrick Attankurugu. But enough about me, what\x27s on your mind today?"

/-- The fixed creator-description reply (bot.js line 144). -/
def patrickReply : String :=
  "Patrick Attankurugu is a great guy, but let\x27s not make this all about him. What\x27s up with you? 😉"

/-- The fixed fallback string returned on any OpenAI failure (bot.js line 165). -/
def fallbackReply : String :=
  "Oops, something went wrong there! But hey, I\x27m still awesome, right? 😎"

/-- The prompt template of bot.js lines 149-155, with the joined history
interpolated. -/
def mkPrompt (history : List String) : String :=
  "\n    Here\x27s the conversation history:\n    " ++ String.intercalate "\n" history ++
  "\n\n    Respond to the last message. Be fun, sarcastic, and engaging in your response.\n    Keep it concise (1-2 sentences max).\n    Avoid big words, use simple, everyday English."

/-- Embeds `getBotResponse` (bot.js lines 123-170): load profile, fetch the
recent history and append the incoming message client-side, then the three
rules in source order, else build the prompt and call OpenAI, falling back to
`fallbackReply` (after logging the error) on any API failure; every branch
pushes the Bot turn before returning the reply. -/
def getBotResponse (env : Env) (sender incomingMsg : String) (st : St) :
    Except Unit String × St :=
  match getUserProfile env sender st with
  | (.error _, st) => (.error (), st)
  | (.ok _user, st) =>
    match getConversationHistory env sender st with
    | (.error _, st) => (.error (), st)
    | (.ok hist, st) =>
      let history := hist ++ ["Human: " ++ incomingMsg]
      if jsToLower incomingMsg == "hi" then
        let response := greetingReply
        match updateConversationHistory env sender response .Bot st with
        | (.error _, st) => (.error (), st)
        | (.ok _, st) => (.ok response, st)
      else if strIncludes (jsToLower incomingMsg) "who are you" then
        let response := whoReply
        match updateConversationHistory env sender response .Bot st with
        | (.error _, st) => (.error (), st)
        | (.ok _, st) => (.ok response, st)
      else if strIncludes (jsToLower incomingMsg) "tell me more about patrick" then
        let response := patrickReply
        match updateConversationHistory env sender response .Bot st with
        | (.error _, st) => (.error (), st)
        | (.ok _, st) => (.ok response, st)
      else
        let prompt := mkPrompt history
        let st := record st (.llmCall prompt)
        match env.llm prompt with
        | .ok raw =>
          let response := jsTrim raw
          match updateConversationHistory env sender response .Bot st with
          | (.error _, st) => (.error (), st)
          | (.ok _, st) => (.ok response, st)
        | .error e =>
          let st := record st (.logError ("OpenAI API error: " ++ e))
          let response := fallbackReply
          match updateConversationHistory env sender response .Bot st with
          | (.error _, st) => (.error (), st)
          | (.ok _, st) => (.ok response, st)

/-- Embeds the message event handler of the client (bot.js lines 78-90): trim the
body, log receipt, persist the Human turn, compute the reply, send it and log
it.  The returned value is the reply handed to `msg.reply`. -/
def handleMessage (env : Env) (sender body : String) (st : St) : Except Unit String × St :=
  let incomingMsg := jsTrim body
  let st := record st (.logInfo ("Received message from " ++ sender ++ ": " ++ incomingMsg))
  match updateConversationHistory env sender incomingMsg .Human st with
  | (.error _, st) => (.error (), st)
  | (.ok _, st) =>
    match getBotResponse env sender incomingMsg st with
    | (.error _, st) => (.error (), st)
    | (.ok botResponse, st) =>
      let st := record st (.reply sender botResponse)
      let st := record st (.logInfo ("Sent response to " ++ sender ++ ": " ++ botResponse))
      (.ok botResponse, st)

/-- Sequential processing of a list of message bodies from one sender. -/
def processAll (env : Env) (sender : String) (bodies : List String) (st : St) : St :=
  match bodies with
  | [] => st
  | b :: rest => processAll env sender rest (handleMessage env sender b st).2

/-! ### Derived notions used to state the claims -/

/-- The rule matcher extracted from the conditions of `getBotResponse`
(bot.js lines 130, 137, 143), in source order: `none` means fall-through to
the completion gateway. -/
def rulesMatch (m : String) : Option String :=
  if jsToLower m == "hi" then some greetingReply
  else if strIncludes (jsToLower m) "who are you" then some whoReply
  else if strIncludes (jsToLower m) "tell me more about patrick" then some patrickReply
  else none

/-- The pure content of `getConversationHistory`: the formatted last-20 slice
of the record of the sender, `[]` when absent. -/
def recentStrings (conv : List Conv) (sender : String) : List String :=
  match findOneConv conv sender with
  | some c => (c.history.drop (c.history.length - 20)).map fmtTurn
  | none => []

/-- The stored history of the sender as read by findOne (first matching
document), `[]` when no document exists. -/
def historyIn : List Conv → String → List Turn
  | [], _ => []
  | c :: cs, s => if c.sender == s then c.history else historyIn cs s

/-- The `users` collection after `getUserProfile` ran for `s`. -/
def usersAfter (users : List Profile) (s : String) : List Profile :=
  match findOneUser users s with
  | some _ => users
  | none => users ++ [newProfile s]

/-- The store events `getUserProfile` emits for `s`. -/
def profEvents (users : List Profile) (s : String) : List Event :=
  match findOneUser users s with
  | some _ => [Event.findUser s]
  | none => [Event.findUser s, Event.insertUser s]

/-- The number of storage calls `getUserProfile` makes for `s`. -/
def profOps (users : List Profile) (s : String) : Nat :=
  match findOneUser users s with
  | some _ => 1
  | none => 2

/-- The prompt context built on the gateway path for trimmed message `m`:
the fetched recent history (read after the Human turn was persisted) plus the
client-side appended latest message (bot.js lines 126-127). -/
def ctxOf (conv : List Conv) (s m : String) (clock : Nat) : List String :=
  recentStrings (pushTurnConv conv s ⟨m, Role.Human, clock⟩) s ++ ["Human: " ++ m]

/-- The winston line logged on receipt (bot.js line 82). -/
def recvLog (s m : String) : Event :=
  Event.logInfo ("Received message from " ++ s ++ ": " ++ m)

/-- The winston line logged after replying (bot.js line 89). -/
def sentLog (s r : String) : Event :=
  Event.logInfo ("Sent response to " ++ s ++ ": " ++ r)

/-- The profiles stored for a given sender. -/
def profilesFor (users : List Profile) (s : String) : List Profile :=
  users.filter (fun u => u.sender == s)

/-- The conversation documents stored for a given sender. -/
def convsFor (conv : List Conv) (s : String) : List Conv :=
  conv.filter (fun c => c.sender == s)

/-- Whether an event is a call to the completion service. -/
def isLlmCall : Event → Bool
  | Event.llmCall _ => true
  | _ => false

/-- A concrete benign environment: storage always works, the completion
service answers a fixed string. -/
def envDemo : Env := ⟨fun _ => true, fun _ => Except.ok " some llm reply "⟩

/-- A concrete environment whose completion service always fails. -/
def envLlmDown : Env := ⟨fun _ => true, fun _ => Except.error "timeout"⟩

/-- A concrete environment whose storage always fails. -/
def envStoreDown : Env := ⟨fun _ => false, fun _ => Except.ok "x"⟩

/-- The Human/Bot alternation of stored (role, message) pairs induced by a
list of trimmed messages and a list of replies. -/
def turnPattern : List String → List String → List (Role × String)
  | b :: bs, r :: rs => (Role.Human, jsTrim b) :: (Role.Bot, r) :: turnPattern bs rs
  | _, _ => []

/-- Forget timestamps: the (role, message) projection of a stored turn. -/
def roleMsg (t : Turn) : Role × String :=
  (t.role, t.message)

/-- Whether an event is an error log line. -/
def isErrLog : Event → Bool
  | Event.logError _ => true
  | _ => false

/-- Whether an event is an outgoing reply. -/
def isReplyEv : Event → Bool
  | Event.reply _ _ => true
  | _ => false

/-- Nothing already stored is lost: old profiles stay (users list extends)
and every senders already stored turns stay an unmodified prefix. -/
def Preserves (st st' : St) : Prop :=
  st.users <+: st'.users ∧ ∀ q, historyIn st.conversations q <+: historyIn st'.conversations q

end Bot

namespace Bot

theorem update_ok (env : Env) (s m : String) (r : Role) (st : St)
    (hok : env.storageOk st.opCount = true) :
    updateConversationHistory env s m r st =
      (.ok (), ⟨st.users, pushTurnConv st.conversations s ⟨m, r, st.clock⟩,
        st.trace ++ [Event.pushTurn s m r], st.opCount + 1, st.clock + 1⟩) := by
  simp [updateConversationHistory, record, storageStep, hok]

theorem getUserProfile_found (env : Env) (s : String) (st : St) (u : Profile)
    (hok : env.storageOk st.opCount = true)
    (hf : findOneUser st.users s = some u) :
    getUserProfile env s st =
      (.ok u, ⟨st.users, st.conversations,
        st.trace ++ [Event.findUser s], st.opCount + 1, st.clock⟩) := by
  simp [getUserProfile, record, storageStep, hok, hf]

theorem getUserProfile_new (env : Env) (s : String) (st : St)
    (hok : env.storageOk st.opCount = true)
    (hok2 : env.storageOk (st.opCount + 1) = true)
    (hf : findOneUser st.users s = none) :
    getUserProfile env s st =
      (.ok (newProfile s), ⟨st.users ++ [newProfile s], st.conversations,
        st.trace ++ [Event.findUser s, Event.insertUser s], st.opCount + 2, st.clock⟩) := by
  simp [getUserProfile, record, storageStep, hok, hok2, hf]

theorem getConversationHistory_ok (env : Env) (s : String) (st : St)
    (hok : env.storageOk st.opCount = true) :
    getConversationHistory env s st =
      (.ok (recentStrings st.conversations s), ⟨st.users, st.conversations,
        st.trace ++ [Event.findConv s], st.opCount + 1, st.clock⟩) := by
  simp only [getConversationHistory, record, storageStep, recentStrings]
  cases hf : findOneConv st.conversations s <;> simp [hok, hf]

end Bot

namespace Bot

theorem getUserProfile_ok (env : Env) (s : String) (st : St)
    (hok : ∀ n, env.storageOk n = true) :
    ∃ u, getUserProfile env s st =
      (.ok u, ⟨usersAfter st.users s, st.conversations,
        st.trace ++ profEvents st.users s, st.opCount + profOps st.users s, st.clock⟩) := by
  cases hf : findOneUser st.users s with
  | some u =>
      refine ⟨u, ?_⟩
      rw [getUserProfile_found env s st u (hok _) hf]
      simp [usersAfter, profEvents, profOps, hf]
  | none =>
      refine ⟨newProfile s, ?_⟩
      rw [getUserProfile_new env s st (hok _) (hok _) hf]
      simp [usersAfter, profEvents, profOps, hf]

theorem getBotResponse_hi (env : Env) (s m : String) (st : St)
    (hok : ∀ n, env.storageOk n = true)
    (h1 : jsToLower m = "hi") :
    getBotResponse env s m st =
      (.ok greetingReply, ⟨usersAfter st.users s,
        pushTurnConv st.conversations s ⟨greetingReply, Role.Bot, st.clock⟩,
        st.trace ++ profEvents st.users s ++ [Event.findConv s, Event.pushTurn s greetingReply Role.Bot],
        st.opCount + profOps st.users s + 2, st.clock + 1⟩) := by
  obtain ⟨u, hu⟩ := getUserProfile_ok env s st hok
  simp only [getBotResponse, hu]
  rw [getConversationHistory_ok env s _ (hok _)]
  simp [h1, update_ok _ _ _ _ _ (hok _), List.append_assoc, Nat.add_assoc]

end Bot

namespace Bot

theorem getBotResponse_who (env : Env) (s m : String) (st : St)
    (hok : ∀ n, env.storageOk n = true)
    (h1 : jsToLower m ≠ "hi")
    (h2 : strIncludes (jsToLower m) "who are you" = true) :
    getBotResponse env s m st =
      (.ok whoReply, ⟨usersAfter st.users s,
        pushTurnConv st.conversations s ⟨whoReply, Role.Bot, st.clock⟩,
        st.trace ++ profEvents st.users s ++ [Event.findConv s, Event.pushTurn s whoReply Role.Bot],
        st.opCount + profOps st.users s + 2, st.clock + 1⟩) := by
  obtain ⟨u, hu⟩ := getUserProfile_ok env s st hok
  simp only [getBotResponse, hu]
  rw [getConversationHistory_ok env s _ (hok _)]
  simp [h1, h2, update_ok _ _ _ _ _ (hok _), List.append_assoc, Nat.add_assoc]

theorem getBotResponse_patrick (env : Env) (s m : String) (st : St)
    (hok : ∀ n, env.storageOk n = true)
    (h1 : jsToLower m ≠ "hi")
    (h2 : strIncludes (jsToLower m) "who are you" = false)
    (h3 : strIncludes (jsToLower m) "tell me more about patrick" = true) :
    getBotResponse env s m st =
      (.ok patrickReply, ⟨usersAfter st.users s,
        pushTurnConv st.conversations s ⟨patrickReply, Role.Bot, st.clock⟩,
        st.trace ++ profEvents st.users s ++ [Event.findConv s, Event.pushTurn s patrickReply Role.Bot],
        st.opCount + profOps st.users s + 2, st.clock + 1⟩) := by
  obtain ⟨u, hu⟩ := getUserProfile_ok env s st hok
  simp only [getBotResponse, hu]
  rw [getConversationHistory_ok env s _ (hok _)]
  simp [h1, h2, h3, update_ok _ _ _ _ _ (hok _), List.append_assoc, Nat.add_assoc]

theorem getBotResponse_missOk (env : Env) (s m : String) (st : St) (raw : String)
    (hok : ∀ n, env.storageOk n = true)
    (h1 : jsToLower m ≠ "hi")
    (h2 : strIncludes (jsToLower m) "who are you" = false)
    (h3 : strIncludes (jsToLower m) "tell me more about patrick" = false)
    (hllm : env.llm (mkPrompt (recentStrings st.conversations s ++ ["Human: " ++ m])) = .ok raw) :
    getBotResponse env s m st =
      (.ok (jsTrim raw), ⟨usersAfter st.users s,
        pushTurnConv st.conversations s ⟨jsTrim raw, Role.Bot, st.clock⟩,
        st.trace ++ profEvents st.users s ++
          [Event.findConv s,
           Event.llmCall (mkPrompt (recentStrings st.conversations s ++ ["Human: " ++ m])),
           Event.pushTurn s (jsTrim raw) Role.Bot],
        st.opCount + profOps st.users s + 2, st.clock + 1⟩) := by
  obtain ⟨u, hu⟩ := getUserProfile_ok env s st hok
  simp only [getBotResponse, hu]
  rw [getConversationHistory_ok env s _ (hok _)]
  simp [h1, h2, h3, record, hllm, update_ok _ _ _ _ _ (hok _), List.append_assoc, Nat.add_assoc]

theorem getBotResponse_missErr (env : Env) (s m : String) (st : St) (err : String)
    (hok : ∀ n, env.storageOk n = true)
    (h1 : jsToLower m ≠ "hi")
    (h2 : strIncludes (jsToLower m) "who are you" = false)
    (h3 : strIncludes (jsToLower m) "tell me more about patrick" = false)
    (hllm : env.llm (mkPrompt (recentStrings st.conversations s ++ ["Human: " ++ m])) = .error err) :
    getBotResponse env s m st =
      (.ok fallbackReply, ⟨usersAfter st.users s,
        pushTurnConv st.conversations s ⟨fallbackReply, Role.Bot, st.clock⟩,
        st.trace ++ profEvents st.users s ++
          [Event.findConv s,
           Event.llmCall (mkPrompt (recentStrings st.conversations s ++ ["Human: " ++ m])),
           Event.logError ("OpenAI API error: " ++ err),
           Event.pushTurn s fallbackReply Role.Bot],
        st.opCount + profOps st.users s + 2, st.clock + 1⟩) := by
  obtain ⟨u, hu⟩ := getUserProfile_ok env s st hok
  simp only [getBotResponse, hu]
  rw [getConversationHistory_ok env s _ (hok _)]
  simp [h1, h2, h3, record, hllm, update_ok _ _ _ _ _ (hok _), List.append_assoc, Nat.add_assoc]

end Bot

namespace Bot

theorem handle_hi (env : Env) (s b : String) (st : St)
    (hok : ∀ n, env.storageOk n = true)
    (h1 : jsToLower (jsTrim b) = "hi") :
    handleMessage env s b st =
      (.ok greetingReply,
       ⟨usersAfter st.users s,
        pushTurnConv (pushTurnConv st.conversations s ⟨jsTrim b, Role.Human, st.clock⟩) s
          ⟨greetingReply, Role.Bot, st.clock + 1⟩,
        st.trace ++ [recvLog s (jsTrim b), Event.pushTurn s (jsTrim b) Role.Human] ++
          profEvents st.users s ++
          [Event.findConv s, Event.pushTurn s greetingReply Role.Bot,
           Event.reply s greetingReply, sentLog s greetingReply],
        st.opCount + profOps st.users s + 3, st.clock + 2⟩) := by
  simp only [handleMessage, record]
  rw [update_ok _ _ _ _ _ (hok _)]
  simp only []
  rw [getBotResponse_hi env s (jsTrim b) _ hok h1]
  simp [record, recvLog, sentLog, List.append_assoc, Nat.add_assoc]
  omega

end Bot

namespace Bot

theorem handle_who (env : Env) (s b : String) (st : St)
    (hok : ∀ n, env.storageOk n = true)
    (h1 : jsToLower (jsTrim b) ≠ "hi")
    (h2 : strIncludes (jsToLower (jsTrim b)) "who are you" = true) :
    handleMessage env s b st =
      (.ok whoReply,
       ⟨usersAfter st.users s,
        pushTurnConv (pushTurnConv st.conversations s ⟨jsTrim b, Role.Human, st.clock⟩) s
          ⟨whoReply, Role.Bot, st.clock + 1⟩,
        st.trace ++ [recvLog s (jsTrim b), Event.pushTurn s (jsTrim b) Role.Human] ++
          profEvents st.users s ++
          [Event.findConv s, Event.pushTurn s whoReply Role.Bot,
           Event.reply s whoReply, sentLog s whoReply],
        st.opCount + profOps st.users s + 3, st.clock + 2⟩) := by
  simp only [handleMessage, record]
  rw [update_ok _ _ _ _ _ (hok _)]
  simp only []
  rw [getBotResponse_who env s (jsTrim b) _ hok h1 h2]
  simp [record, recvLog, sentLog, List.append_assoc, Nat.add_assoc]
  omega

theorem handle_patrick (env : Env) (s b : String) (st : St)
    (hok : ∀ n, env.storageOk n = true)
    (h1 : jsToLower (jsTrim b) ≠ "hi")
    (h2 : strIncludes (jsToLower (jsTrim b)) "who are you" = false)
    (h3 : strIncludes (jsToLower (jsTrim b)) "tell me more about patrick" = true) :
    handleMessage env s b st =
      (.ok patrickReply,
       ⟨usersAfter st.users s,
        pushTurnConv (pushTurnConv st.conversations s ⟨jsTrim b, Role.Human, st.clock⟩) s
          ⟨patrickReply, Role.Bot, st.clock + 1⟩,
        st.trace ++ [recvLog s (jsTrim b), Event.pushTurn s (jsTrim b) Role.Human] ++
          profEvents st.users s ++
          [Event.findConv s, Event.pushTurn s patrickReply Role.Bot,
           Event.reply s patrickReply, sentLog s patrickReply],
        st.opCount + profOps st.users s + 3, st.clock + 2⟩) := by
  simp only [handleMessage, record]
  rw [update_ok _ _ _ _ _ (hok _)]
  simp only []
  rw [getBotResponse_patrick env s (jsTrim b) _ hok h1 h2 h3]
  simp [record, recvLog, sentLog, List.append_assoc, Nat.add_assoc]
  omega

theorem handle_missOk (env : Env) (s b : String) (st : St) (raw : String)
    (hok : ∀ n, env.storageOk n = true)
    (h1 : jsToLower (jsTrim b) ≠ "hi")
    (h2 : strIncludes (jsToLower (jsTrim b)) "who are you" = false)
    (h3 : strIncludes (jsToLower (jsTrim b)) "tell me more about patrick" = false)
    (hllm : env.llm (mkPrompt (ctxOf st.conversations s (jsTrim b) st.clock)) = .ok raw) :
    handleMessage env s b st =
      (.ok (jsTrim raw),
       ⟨usersAfter st.users s,
        pushTurnConv (pushTurnConv st.conversations s ⟨jsTrim b, Role.Human, st.clock⟩) s
          ⟨jsTrim raw, Role.Bot, st.clock + 1⟩,
        st.trace ++ [recvLog s (jsTrim b), Event.pushTurn s (jsTrim b) Role.Human] ++
          profEvents st.users s ++
          [Event.findConv s,
           Event.llmCall (mkPrompt (ctxOf st.conversations s (jsTrim b) st.clock)),
           Event.pushTurn s (jsTrim raw) Role.Bot,
           Event.reply s (jsTrim raw), sentLog s (jsTrim raw)],
        st.opCount + profOps st.users s + 3, st.clock + 2⟩) := by
  simp only [handleMessage, record]
  rw [update_ok _ _ _ _ _ (hok _)]
  simp only []
  rw [getBotResponse_missOk env s (jsTrim b) _ raw hok h1 h2 h3 (by simpa [ctxOf] using hllm)]
  simp [record, recvLog, sentLog, ctxOf, List.append_assoc, Nat.add_assoc]
  omega

theorem handle_missErr (env : Env) (s b : String) (st : St) (err : String)
    (hok : ∀ n, env.storageOk n = true)
    (h1 : jsToLower (jsTrim b) ≠ "hi")
    (h2 : strIncludes (jsToLower (jsTrim b)) "who are you" = false)
    (h3 : strIncludes (jsToLower (jsTrim b)) "tell me more about patrick" = false)
    (hllm : env.llm (mkPrompt (ctxOf st.conversations s (jsTrim b) st.clock)) = .error err) :
    handleMessage env s b st =
      (.ok fallbackReply,
       ⟨usersAfter st.users s,
        pushTurnConv (pushTurnConv st.conversations s ⟨jsTrim b, Role.Human, st.clock⟩) s
          ⟨fallbackReply, Role.Bot, st.clock + 1⟩,
        st.trace ++ [recvLog s (jsTrim b), Event.pushTurn s (jsTrim b) Role.Human] ++
          profEvents st.users s ++
          [Event.findConv s,
           Event.llmCall (mkPrompt (ctxOf st.conversations s (jsTrim b) st.clock)),
           Event.logError ("OpenAI API error: " ++ err),
           Event.pushTurn s fallbackReply Role.Bot,
           Event.reply s fallbackReply, sentLog s fallbackReply],
        st.opCount + profOps st.users s + 3, st.clock + 2⟩) := by
  simp only [handleMessage, record]
  rw [update_ok _ _ _ _ _ (hok _)]
  simp only []
  rw [getBotResponse_missErr env s (jsTrim b) _ err hok h1 h2 h3 (by simpa [ctxOf] using hllm)]
  simp [record, recvLog, sentLog, ctxOf, List.append_assoc, Nat.add_assoc]
  omega

end Bot

namespace Bot

theorem historyIn_push (conv : List Conv) (s : String) (t : Turn) (q : String) :
    historyIn (pushTurnConv conv s t) q =
      if q = s then historyIn conv s ++ [t] else historyIn conv q := by
  induction conv with
  | nil =>
      by_cases hq : q = s
      · subst hq
        simp [pushTurnConv, historyIn]
      · have hsq : ¬ (s = q) := fun h => hq h.symm
        simp [pushTurnConv, historyIn, hq, hsq]
  | cons c cs ih =>
      by_cases hc : c.sender = s
      · by_cases hq : q = s
        · subst hq
          simp [pushTurnConv, historyIn, hc]
        · have hsq : ¬ (s = q) := fun h => hq h.symm
          simp [pushTurnConv, historyIn, hc, hq, hsq]
      · by_cases hq : q = s
        · subst hq
          simp [pushTurnConv, historyIn, hc, ih]
        · simp [pushTurnConv, historyIn, hc, hq, ih]

end Bot

namespace Bot

theorem handle_ok_shape (env : Env) (s b : String) (st : St)
    (hok : ∀ n, env.storageOk n = true) :
    ∃ resp, (handleMessage env s b st).1 = .ok resp ∧
      (handleMessage env s b st).2.users = usersAfter st.users s ∧
      (handleMessage env s b st).2.conversations =
        pushTurnConv (pushTurnConv st.conversations s ⟨jsTrim b, Role.Human, st.clock⟩) s
          ⟨resp, Role.Bot, st.clock + 1⟩ ∧
      (handleMessage env s b st).2.clock = st.clock + 2 := by
  by_cases h1 : jsToLower (jsTrim b) = "hi"
  · refine ⟨greetingReply, ?_⟩
    rw [handle_hi env s b st hok h1]
    simp
  · by_cases h2 : strIncludes (jsToLower (jsTrim b)) "who are you" = true
    · refine ⟨whoReply, ?_⟩
      rw [handle_who env s b st hok h1 h2]
      simp
    · rw [Bool.not_eq_true] at h2
      by_cases h3 : strIncludes (jsToLower (jsTrim b)) "tell me more about patrick" = true
      · refine ⟨patrickReply, ?_⟩
        rw [handle_patrick env s b st hok h1 h2 h3]
        simp
      · rw [Bool.not_eq_true] at h3
        cases hllm : env.llm (mkPrompt (ctxOf st.conversations s (jsTrim b) st.clock)) with
        | ok raw =>
            refine ⟨jsTrim raw, ?_⟩
            rw [handle_missOk env s b st raw hok h1 h2 h3 hllm]
            simp
        | error err =>
            refine ⟨fallbackReply, ?_⟩
            rw [handle_missErr env s b st err hok h1 h2 h3 hllm]
            simp

end Bot

namespace Bot

theorem processAll_history (env : Env) (s : String) (bodies : List String) (st : St)
    (hok : ∀ n, env.storageOk n = true) :
    ∃ replies : List String, replies.length = bodies.length ∧
      (historyIn (processAll env s bodies st).conversations s).map roleMsg =
        (historyIn st.conversations s).map roleMsg ++ turnPattern bodies replies := by
  induction bodies generalizing st with
  | nil => exact ⟨[], rfl, by simp [processAll, turnPattern]⟩
  | cons b bs ih =>
      obtain ⟨resp, hres, husers, hconv, hclock⟩ := handle_ok_shape env s b st hok
      obtain ⟨replies, hlen, hmap⟩ := ih (handleMessage env s b st).2
      refine ⟨resp :: replies, by simp [hlen], ?_⟩
      simp only [processAll]
      rw [hmap, hconv, historyIn_push, historyIn_push]
      simp [turnPattern, roleMsg]

end Bot

namespace Bot

theorem preserves_trans {a b c : St} (h1 : Preserves a b) (h2 : Preserves b c) :
    Preserves a c :=
  ⟨h1.1.trans h2.1, fun q => (h1.2 q).trans (h2.2 q)⟩

theorem pres_record (st : St) (e : Event) : Preserves st (record st e) := by
  constructor
  · simp [record]
  · intro q
    simp [record]

theorem pres_upd {env : Env} {s m : String} {r : Role} {st : St} {res : Except Unit Unit}
    {st' : St} (h : updateConversationHistory env s m r st = (res, st')) :
    Preserves st st' := by
  have : Preserves st (updateConversationHistory env s m r st).2 := by
    simp only [updateConversationHistory, record, storageStep]
    cases henv : env.storageOk st.opCount
    · simp only [henv]
      exact ⟨List.prefix_refl _, fun _ => List.prefix_refl _⟩
    · simp only [henv]
      refine ⟨List.prefix_refl _, fun q => ?_⟩
      rw [historyIn_push]
      by_cases hq : q = s
      · subst hq
        simp
      · simp [hq]
  rw [h] at this
  exact this

theorem pres_gup {env : Env} {s : String} {st : St} {res : Except Unit Profile} {st' : St}
    (h : getUserProfile env s st = (res, st')) : Preserves st st' := by
  have : Preserves st (getUserProfile env s st).2 := by
    simp only [getUserProfile, record, storageStep]
    cases henv : env.storageOk st.opCount
    · simp only [henv]
      exact ⟨List.prefix_refl _, fun _ => List.prefix_refl _⟩
    · simp only [henv]
      cases hf : findOneUser st.users s
      · cases henv2 : env.storageOk (st.opCount + 1) <;>
          simp only [hf, henv2] <;>
          exact ⟨by simp, fun _ => List.prefix_refl _⟩
      · simp only [hf]
        exact ⟨List.prefix_refl _, fun _ => List.prefix_refl _⟩
  rw [h] at this
  exact this

theorem pres_gch {env : Env} {s : String} {st : St} {res : Except Unit (List String)} {st' : St}
    (h : getConversationHistory env s st = (res, st')) : Preserves st st' := by
  have : Preserves st (getConversationHistory env s st).2 := by
    simp only [getConversationHistory, record, storageStep]
    cases henv : env.storageOk st.opCount
    · simp only [henv]
      exact ⟨List.prefix_refl _, fun _ => List.prefix_refl _⟩
    · simp only [henv]
      cases hf : findOneConv st.conversations s <;>
        simp only [hf] <;>
        exact ⟨List.prefix_refl _, fun _ => List.prefix_refl _⟩
  rw [h] at this
  exact this

theorem pres_updTail {st stIn : St} {env : Env} {s resp : String} {r : Role}
    (p : Preserves st stIn) :
    Preserves st
      ((match updateConversationHistory env s resp r stIn with
        | (Except.error _, st) => ((Except.error () : Except Unit String), st)
        | (Except.ok _, st) => (Except.ok resp, st)).2) := by
  rcases h : updateConversationHistory env s resp r stIn with ⟨r3, st3⟩
  have h3 := preserves_trans p (pres_upd h)
  rcases r3 with e | u <;> simpa using h3

theorem pres_gbr (env : Env) (s m : String) (st : St) :
    Preserves st (getBotResponse env s m st).2 := by
  unfold getBotResponse
  rcases hgu : getUserProfile env s st with ⟨r1, st1⟩
  have p1 := pres_gup hgu
  rcases r1 with e | u
  · simpa using p1
  · simp only
    rcases hgc : getConversationHistory env s st1 with ⟨r2, st2⟩
    have p2 := preserves_trans p1 (pres_gch hgc)
    rcases r2 with e | hist
    · simpa using p2
    · simp only
      by_cases c1 : (jsToLower m == "hi") = true
      · simp only [c1, if_true]
        exact pres_updTail p2
      · rw [Bool.not_eq_true] at c1
        simp only [c1, Bool.false_eq_true, if_false]
        by_cases c2 : strIncludes (jsToLower m) "who are you" = true
        · simp only [c2, if_true]
          exact pres_updTail p2
        · rw [Bool.not_eq_true] at c2
          simp only [c2, Bool.false_eq_true, if_false]
          by_cases c3 : strIncludes (jsToLower m) "tell me more about patrick" = true
          · simp only [c3, if_true]
            exact pres_updTail p2
          · rw [Bool.not_eq_true] at c3
            simp only [c3, Bool.false_eq_true, if_false]
            rcases hllm : env.llm (mkPrompt (hist ++ ["Human: " ++ m])) with err | raw
            · exact pres_updTail (preserves_trans (preserves_trans p2 (pres_record st2 _))
                (pres_record _ _))
            · exact pres_updTail (preserves_trans p2 (pres_record st2 _))

end Bot

namespace Bot

theorem pres_handle (env : Env) (s b : String) (st : St) :
    Preserves st (handleMessage env s b st).2 := by
  unfold handleMessage
  dsimp only
  rcases hup : updateConversationHistory env s (jsTrim b) Role.Human
      (record st (Event.logInfo ("Received message from " ++ s ++ ": " ++ jsTrim b)))
    with ⟨r1, st1⟩
  have p1 := preserves_trans
    (pres_record st (Event.logInfo ("Received message from " ++ s ++ ": " ++ jsTrim b)))
    (pres_upd hup)
  rcases r1 with e | u
  · simpa using p1
  · simp only
    rcases hbr : getBotResponse env s (jsTrim b) st1 with ⟨r2, st2⟩
    have pbr := pres_gbr env s (jsTrim b) st1
    rw [hbr] at pbr
    have p2 := preserves_trans p1 pbr
    rcases r2 with e | resp
    · simpa using p2
    · simp only
      exact preserves_trans p2
        (preserves_trans (pres_record st2 _) (pres_record _ _))

end Bot

namespace Bot

end Bot

namespace Bot

theorem gbr_err_trace (env : Env) (s m : String) (st : St) :
    (getBotResponse env s m st).1 = Except.error () →
    ((getBotResponse env s m st).2.trace = st.trace ++ [Event.findUser s] ∨
     (getBotResponse env s m st).2.trace =
       st.trace ++ [Event.findUser s] ++ [Event.insertUser s] ∨
     (getBotResponse env s m st).2.trace =
       st.trace ++ profEvents st.users s ++ [Event.findConv s] ∨
     (∃ resp, (getBotResponse env s m st).2.trace =
       st.trace ++ profEvents st.users s ++ [Event.findConv s] ++
         [Event.pushTurn s resp Role.Bot]) ∨
     (∃ p resp, (getBotResponse env s m st).2.trace =
       st.trace ++ profEvents st.users s ++ [Event.findConv s] ++ [Event.llmCall p] ++
         [Event.pushTurn s resp Role.Bot]) ∨
     (∃ p e2 resp, (getBotResponse env s m st).2.trace =
       st.trace ++ profEvents st.users s ++ [Event.findConv s] ++ [Event.llmCall p] ++
         [Event.logError ("OpenAI API error: " ++ e2)] ++
         [Event.pushTurn s resp Role.Bot])) := by
  simp only [getBotResponse, getUserProfile, getConversationHistory, updateConversationHistory,
    record, storageStep]
  cases henv0 : env.storageOk st.opCount with
  | false =>
      intro _
      exact Or.inl (by simp)
  | true =>
      dsimp only
      cases hfu : findOneUser st.users s with
      | some u =>
          dsimp only
          cases henv1 : env.storageOk (st.opCount + 1) with
          | false =>
              intro _
              exact Or.inr (Or.inr (Or.inl (by simp [profEvents, hfu])))
          | true =>
              dsimp only
              cases hfc : findOneConv st.conversations s with
              | some c =>
                  dsimp only
                  by_cases c1 : (jsToLower m == "hi") = true
                  · simp only [c1, if_true]
                    cases henvP : env.storageOk (st.opCount + 1 + 1) with
                    | false =>
                        intro _
                        exact Or.inr (Or.inr (Or.inr (Or.inl
                          ⟨greetingReply, by simp [profEvents, hfu]⟩)))
                    | true =>
                        intro herr
                        exact absurd herr (by simp)
                  · simp only [c1, if_false, Bool.false_eq_true]
                    by_cases c2 : strIncludes (jsToLower m) "who are you" = true
                    · simp only [c2, if_true]
                      cases henvP : env.storageOk (st.opCount + 1 + 1) with
                      | false =>
                          intro _
                          exact Or.inr (Or.inr (Or.inr (Or.inl
                            ⟨whoReply, by simp [profEvents, hfu]⟩)))
                      | true =>
                          intro herr
                          exact absurd herr (by simp)
                    · simp only [c2, if_false, Bool.false_eq_true]
                      by_cases c3 : strIncludes (jsToLower m) "tell me more about patrick" = true
                      · simp only [c3, if_true]
                        cases henvP : env.storageOk (st.opCount + 1 + 1) with
                        | false =>
                            intro _
                            exact Or.inr (Or.inr (Or.inr (Or.inl
                              ⟨patrickReply, by simp [profEvents, hfu]⟩)))
                        | true =>
                            intro herr
                            exact absurd herr (by simp)
                      · simp only [c3, if_false, Bool.false_eq_true]
                        cases hllm : env.llm ((mkPrompt ((c.history.drop (c.history.length - 20)).map fmtTurn ++ ["Human: " ++ m]))) with
                        | ok raw =>
                            cases henvP : env.storageOk (st.opCount + 1 + 1) with
                            | false =>
                                intro _
                                exact Or.inr (Or.inr (Or.inr (Or.inr (Or.inl
                                  ⟨(mkPrompt ((c.history.drop (c.history.length - 20)).map fmtTurn ++ ["Human: " ++ m])), jsTrim raw, by simp [profEvents, hfu]⟩))))
                            | true =>
                                intro herr
                                exact absurd herr (by simp)
                        | error e2 =>
                            cases henvP : env.storageOk (st.opCount + 1 + 1) with
                            | false =>
                                intro _
                                exact Or.inr (Or.inr (Or.inr (Or.inr (Or.inr
                                  ⟨(mkPrompt ((c.history.drop (c.history.length - 20)).map fmtTurn ++ ["Human: " ++ m])), e2, fallbackReply, by simp [profEvents, hfu]⟩))))
                            | true =>
                                intro herr
                                exact absurd herr (by simp)
              | none =>
                  dsimp only
                  by_cases c1 : (jsToLower m == "hi") = true
                  · simp only [c1, if_true]
                    cases henvP : env.storageOk (st.opCount + 1 + 1) with
                    | false =>
                        intro _
                        exact Or.inr (Or.inr (Or.inr (Or.inl
                          ⟨greetingReply, by simp [profEvents, hfu]⟩)))
                    | true =>
                        intro herr
                        exact absurd herr (by simp)
                  · simp only [c1, if_false, Bool.false_eq_true]
                    by_cases c2 : strIncludes (jsToLower m) "who are you" = true
                    · simp only [c2, if_true]
                      cases henvP : env.storageOk (st.opCount + 1 + 1) with
                      | false =>
                          intro _
                          exact Or.inr (Or.inr (Or.inr (Or.inl
                            ⟨whoReply, by simp [profEvents, hfu]⟩)))
                      | true =>
                          intro herr
                          exact absurd herr (by simp)
                    · simp only [c2, if_false, Bool.false_eq_true]
                      by_cases c3 : strIncludes (jsToLower m) "tell me more about patrick" = true
                      · simp only [c3, if_true]
                        cases henvP : env.storageOk (st.opCount + 1 + 1) with
                        | false =>
                            intro _
                            exact Or.inr (Or.inr (Or.inr (Or.inl
                              ⟨patrickReply, by simp [profEvents, hfu]⟩)))
                        | true =>
                            intro herr
                            exact absurd herr (by simp)
                      · simp only [c3, if_false, Bool.false_eq_true]
                        cases hllm : env.llm ((mkPrompt ([] ++ ["Human: " ++ m]))) with
                        | ok raw =>
                            cases henvP : env.storageOk (st.opCount + 1 + 1) with
                            | false =>
                                intro _
                                exact Or.inr (Or.inr (Or.inr (Or.inr (Or.inl
                                  ⟨(mkPrompt ([] ++ ["Human: " ++ m])), jsTrim raw, by simp [profEvents, hfu]⟩))))
                            | true =>
                                intro herr
                                exact absurd herr (by simp)
                        | error e2 =>
                            cases henvP : env.storageOk (st.opCount + 1 + 1) with
                            | false =>
                                intro _
                                exact Or.inr (Or.inr (Or.inr (Or.inr (Or.inr
                                  ⟨(mkPrompt ([] ++ ["Human: " ++ m])), e2, fallbackReply, by simp [profEvents, hfu]⟩))))
                            | true =>
                                intro herr
                                exact absurd herr (by simp)
      | none =>
          dsimp only
          cases henv1 : env.storageOk (st.opCount + 1) with
          | false =>
              intro _
              exact Or.inr (Or.inl (by simp))
          | true =>
              dsimp only
              cases henv2 : env.storageOk (st.opCount + 1 + 1) with
              | false =>
                  intro _
                  exact Or.inr (Or.inr (Or.inl (by simp [profEvents, hfu])))
              | true =>
                  dsimp only
                  cases hfc : findOneConv st.conversations s with
                  | some c =>
                      dsimp only
                      by_cases c1 : (jsToLower m == "hi") = true
                      · simp only [c1, if_true]
                        cases henvP : env.storageOk (st.opCount + 1 + 1 + 1) with
                        | false =>
                            intro _
                            exact Or.inr (Or.inr (Or.inr (Or.inl
                              ⟨greetingReply, by simp [profEvents, hfu]⟩)))
                        | true =>
                            intro herr
                            exact absurd herr (by simp)
                      · simp only [c1, if_false, Bool.false_eq_true]
                        by_cases c2 : strIncludes (jsToLower m) "who are you" = true
                        · simp only [c2, if_true]
                          cases henvP : env.storageOk (st.opCount + 1 + 1 + 1) with
                          | false =>
                              intro _
                              exact Or.inr (Or.inr (Or.inr (Or.inl
                                ⟨whoReply, by simp [profEvents, hfu]⟩)))
                          | true =>
                              intro herr
                              exact absurd herr (by simp)
                        · simp only [c2, if_false, Bool.false_eq_true]
                          by_cases c3 : strIncludes (jsToLower m) "tell me more about patrick" = true
                          · simp only [c3, if_true]
                            cases henvP : env.storageOk (st.opCount + 1 + 1 + 1) with
                            | false =>
                                intro _
                                exact Or.inr (Or.inr (Or.inr (Or.inl
                                  ⟨patrickReply, by simp [profEvents, hfu]⟩)))
                            | true =>
                                intro herr
                                exact absurd herr (by simp)
                          · simp only [c3, if_false, Bool.false_eq_true]
                            cases hllm : env.llm ((mkPrompt ((c.history.drop (c.history.length - 20)).map fmtTurn ++ ["Human: " ++ m]))) with
                            | ok raw =>
                                cases henvP : env.storageOk (st.opCount + 1 + 1 + 1) with
                                | false =>
                                    intro _
                                    exact Or.inr (Or.inr (Or.inr (Or.inr (Or.inl
                                      ⟨(mkPrompt ((c.history.drop (c.history.length - 20)).map fmtTurn ++ ["Human: " ++ m])), jsTrim raw, by simp [profEvents, hfu]⟩))))
                                | true =>
                                    intro herr
                                    exact absurd herr (by simp)
                            | error e2 =>
                                cases henvP : env.storageOk (st.opCount + 1 + 1 + 1) with
                                | false =>
                                    intro _
                                    exact Or.inr (Or.inr (Or.inr (Or.inr (Or.inr
                                      ⟨(mkPrompt ((c.history.drop (c.history.length - 20)).map fmtTurn ++ ["Human: " ++ m])), e2, fallbackReply, by simp [profEvents, hfu]⟩))))
                                | true =>
                                    intro herr
                                    exact absurd herr (by simp)
                  | none =>
                      dsimp only
                      by_cases c1 : (jsToLower m == "hi") = true
                      · simp only [c1, if_true]
                        cases henvP : env.storageOk (st.opCount + 1 + 1 + 1) with
                        | false =>
                            intro _
                            exact Or.inr (Or.inr (Or.inr (Or.inl
                              ⟨greetingReply, by simp [profEvents, hfu]⟩)))
                        | true =>
                            intro herr
                            exact absurd herr (by simp)
                      · simp only [c1, if_false, Bool.false_eq_true]
                        by_cases c2 : strIncludes (jsToLower m) "who are you" = true
                        · simp only [c2, if_true]
                          cases henvP : env.storageOk (st.opCount + 1 + 1 + 1) with
                          | false =>
                              intro _
                              exact Or.inr (Or.inr (Or.inr (Or.inl
                                ⟨whoReply, by simp [profEvents, hfu]⟩)))
                          | true =>
                              intro herr
                              exact absurd herr (by simp)
                        · simp only [c2, if_false, Bool.false_eq_true]
                          by_cases c3 : strIncludes (jsToLower m) "tell me more about patrick" = true
                          · simp only [c3, if_true]
                            cases henvP : env.storageOk (st.opCount + 1 + 1 + 1) with
                            | false =>
                                intro _
                                exact Or.inr (Or.inr (Or.inr (Or.inl
                                  ⟨patrickReply, by simp [profEvents, hfu]⟩)))
                            | true =>
                                intro herr
                                exact absurd herr (by simp)
                          · simp only [c3, if_false, Bool.false_eq_true]
                            cases hllm : env.llm ((mkPrompt ([] ++ ["Human: " ++ m]))) with
                            | ok raw =>
                                cases henvP : env.storageOk (st.opCount + 1 + 1 + 1) with
                                | false =>
                                    intro _
                                    exact Or.inr (Or.inr (Or.inr (Or.inr (Or.inl
                                      ⟨(mkPrompt ([] ++ ["Human: " ++ m])), jsTrim raw, by simp [profEvents, hfu]⟩))))
                                | true =>
                                    intro herr
                                    exact absurd herr (by simp)
                            | error e2 =>
                                cases henvP : env.storageOk (st.opCount + 1 + 1 + 1) with
                                | false =>
                                    intro _
                                    exact Or.inr (Or.inr (Or.inr (Or.inr (Or.inr
                                      ⟨(mkPrompt ([] ++ ["Human: " ++ m])), e2, fallbackReply, by simp [profEvents, hfu]⟩))))
                                | true =>
                                    intro herr
                                    exact absurd herr (by simp)

end Bot

namespace Bot

theorem handle_err_trace (env : Env) (s b : String) (st : St) (htr : st.trace = []) :
    (handleMessage env s b st).1 = Except.error () →
    ((∀ q r, Event.reply q r ∉ (handleMessage env s b st).2.trace) ∧
     (∀ t, Event.logError t ∈ (handleMessage env s b st).2.trace →
        ∃ e, t = "OpenAI API error: " ++ e) ∧
     (handleMessage env s b st).2.trace.Nodup) := by
  simp only [handleMessage, updateConversationHistory, record, storageStep]
  cases henv0 : env.storageOk st.opCount with
  | false =>
      intro _
      refine ⟨?_, ?_, ?_⟩ <;> simp [htr]
  | true =>
      dsimp only
      split
      next a2 st2 heq =>
        cases a2
        intro _
        have h1 : _ = Except.error () := congrArg Prod.fst heq
        have hd := gbr_err_trace env s (jsTrim b) _ h1
        rw [heq] at hd
        dsimp only at hd ⊢
        rcases hd with h|h|h|⟨resp,h⟩|⟨p,resp,h⟩|⟨p,e2,resp,h⟩ <;> rw [h] <;>
          cases hfu : findOneUser st.users s <;>
          refine ⟨?_, ?_, ?_⟩ <;>
          simp [profEvents, hfu, htr]
      next resp st2 heq =>
        intro herr
        exact absurd herr (by simp)

end Bot

namespace Bot

theorem historyIn_eq (conv : List Conv) (s : String) :
    historyIn conv s = match findOneConv conv s with
      | some c => c.history
      | none => [] := by
  induction conv with
  | nil => simp [historyIn, findOneConv]
  | cons c cs ih =>
      by_cases hc : c.sender == s <;> simp [historyIn, findOneConv, hc, ih]

theorem recentStrings_eq (conv : List Conv) (s : String) :
    recentStrings conv s =
      ((historyIn conv s).drop ((historyIn conv s).length - 20)).map fmtTurn := by
  rw [historyIn_eq]
  cases hf : findOneConv conv s <;> simp [recentStrings, hf]

theorem recentStrings_le_20 (conv : List Conv) (s : String) :
    (recentStrings conv s).length ≤ 20 := by
  rw [recentStrings_eq]
  simp
  omega

theorem turnPattern_length (bodies replies : List String)
    (h : replies.length = bodies.length) :
    (turnPattern bodies replies).length = 2 * bodies.length := by
  induction bodies generalizing replies with
  | nil => simp [turnPattern]
  | cons b bs ih =>
      cases replies with
      | nil => simp at h
      | cons r rs =>
          simp only [turnPattern, List.length_cons] at h ⊢
          rw [ih rs (by omega)]
          omega

theorem recentStrings_push_mem (conv : List Conv) (s m : String) (clock : Nat) :
    ("Human: " ++ m) ∈ recentStrings (pushTurnConv conv s ⟨m, Role.Human, clock⟩) s := by
  rw [recentStrings_eq, historyIn_push, if_pos rfl]
  have hle : (historyIn conv s).length + 1 - 20 ≤ (historyIn conv s).length := by omega
  rw [List.length_append]
  simp only [List.length_cons, List.length_nil]
  rw [List.drop_append_of_le_length hle]
  refine List.mem_map.mpr ⟨⟨m, Role.Human, clock⟩, ?_, rfl⟩
  simp

theorem ctxOf_count (conv : List Conv) (s m : String) (clock : Nat) :
    2 ≤ (ctxOf conv s m clock).count ("Human: " ++ m) := by
  unfold ctxOf
  rw [List.count_append]
  have h1 : 1 ≤ (recentStrings (pushTurnConv conv s ⟨m, Role.Human, clock⟩) s).count
      ("Human: " ++ m) :=
    List.count_pos_iff.mpr (recentStrings_push_mem conv s m clock)
  have h2 : (["Human: " ++ m] : List String).count ("Human: " ++ m) = 1 := by simp
  omega

end Bot

namespace Bot

/-- C2: rules are checked in source order with first match winning. -/
theorem claim_rule_priority :
    (∀ env s st (m : String), (∀ n, env.storageOk n = true) → jsToLower m = "hi" →
      (getBotResponse env s m st).1 = Except.ok greetingReply) ∧
    (∀ env s st (m : String), (∀ n, env.storageOk n = true) → jsToLower m ≠ "hi" →
      strIncludes (jsToLower m) "who are you" = true →
      (getBotResponse env s m st).1 = Except.ok whoReply) ∧
    (∀ env s st (m : String), (∀ n, env.storageOk n = true) → jsToLower m ≠ "hi" →
      strIncludes (jsToLower m) "who are you" = false →
      strIncludes (jsToLower m) "tell me more about patrick" = true →
      (getBotResponse env s m st).1 = Except.ok patrickReply) ∧
    ((handleMessage envDemo "s1" "Who are you? Tell me more about Patrick" St.init).1 =
        Except.ok whoReply ∧
      (handleMessage envDemo "s1" "Who are you? Tell me more about Patrick" St.init).2.trace.all
        (fun e => !isLlmCall e) = true) := by
  refine ⟨?_, ?_, ?_, ?_, ?_⟩
  · intro env s st m hok h1
    rw [getBotResponse_hi env s m st hok h1]
  · intro env s st m hok h1 h2
    rw [getBotResponse_who env s m st hok h1 h2]
  · intro env s st m hok h1 h2 h3
    rw [getBotResponse_patrick env s m st hok h1 h2 h3]
  · decide
  · decide

theorem claim_rule_priority_witness :
    (getBotResponse envDemo "s1" "who are you, really?" St.init).1 = Except.ok whoReply :=
  claim_rule_priority.2.1 envDemo "s1" St.init "who are you, really?" (fun _ => rfl)
    (by decide) (by decide)

/-- C6: exact-match greeting rule. -/
theorem claim_hi_exact :
    (∀ env s b st, (∀ n, env.storageOk n = true) → jsToLower (jsTrim b) = "hi" →
      (handleMessage env s b st).1 = Except.ok greetingReply) ∧
    (∀ env s st, (∀ n, env.storageOk n = true) →
      ∃ p, Event.llmCall p ∈ (handleMessage env s "hiya" st).2.trace) := by
  constructor
  · intro env s b st hok h1
    rw [handle_hi env s b st hok h1]
  · intro env s st hok
    have h1 : jsToLower (jsTrim "hiya") ≠ "hi" := by decide
    have h2 : strIncludes (jsToLower (jsTrim "hiya")) "who are you" = false := by decide
    have h3 : strIncludes (jsToLower (jsTrim "hiya")) "tell me more about patrick" = false := by
      decide
    refine ⟨mkPrompt (ctxOf st.conversations s (jsTrim "hiya") st.clock), ?_⟩
    cases hllm : env.llm (mkPrompt (ctxOf st.conversations s (jsTrim "hiya") st.clock)) with
    | ok raw =>
        rw [handle_missOk env s "hiya" st raw hok h1 h2 h3 hllm]
        simp
    | error e2 =>
        rw [handle_missErr env s "hiya" st e2 hok h1 h2 h3 hllm]
        simp

theorem claim_hi_exact_witness :
    (handleMessage envDemo "s1" "  Hi  " St.init).1 = Except.ok greetingReply ∧
    ∃ p, Event.llmCall p ∈ (handleMessage envDemo "s1" "hiya" St.init).2.trace :=
  ⟨claim_hi_exact.1 envDemo "s1" "  Hi  " St.init (fun _ => rfl) (by decide),
   claim_hi_exact.2 envDemo "s1" St.init (fun _ => rfl)⟩

/-- C3: any completion failure yields the fixed fallback reply, still recorded. -/
theorem claim_gateway_fallback :
    ∀ env s b st err, (∀ n, env.storageOk n = true) →
      (∀ p, env.llm p = Except.error err) →
      jsToLower (jsTrim b) ≠ "hi" →
      strIncludes (jsToLower (jsTrim b)) "who are you" = false →
      strIncludes (jsToLower (jsTrim b)) "tell me more about patrick" = false →
      (handleMessage env s b st).1 = Except.ok fallbackReply ∧
      historyIn (handleMessage env s b st).2.conversations s =
        historyIn st.conversations s ++
          [⟨jsTrim b, Role.Human, st.clock⟩, ⟨fallbackReply, Role.Bot, st.clock + 1⟩] := by
  intro env s b st err hok hllm h1 h2 h3
  rw [handle_missErr env s b st err hok h1 h2 h3 (hllm _)]
  refine ⟨rfl, ?_⟩
  rw [historyIn_push, historyIn_push]
  simp

theorem claim_gateway_fallback_witness :
    (handleMessage envLlmDown "s1" "what is up" St.init).1 = Except.ok fallbackReply ∧
    historyIn (handleMessage envLlmDown "s1" "what is up" St.init).2.conversations "s1" =
      historyIn St.init.conversations "s1" ++
        [⟨jsTrim "what is up", Role.Human, St.init.clock⟩,
         ⟨fallbackReply, Role.Bot, St.init.clock + 1⟩] :=
  claim_gateway_fallback envLlmDown "s1" "what is up" St.init "timeout" (fun _ => rfl)
    (fun _ => rfl) (by decide) (by decide) (by decide)

/-- C4: the recent-history read returns the formatted last-20 slice. -/
theorem claim_recent_read :
    ∀ env s st, env.storageOk st.opCount = true →
      ((getConversationHistory env s st).1 =
        Except.ok (((historyIn st.conversations s).drop
          ((historyIn st.conversations s).length - 20)).map fmtTurn) ∧
       (∀ l, (getConversationHistory env s st).1 = Except.ok l → l.length ≤ 20) ∧
       (findOneConv st.conversations s = none →
         (getConversationHistory env s st).1 = Except.ok [])) := by
  intro env s st hok
  rw [getConversationHistory_ok env s st hok]
  refine ⟨by rw [recentStrings_eq], ?_, ?_⟩
  · intro l hl
    have : l = recentStrings st.conversations s := by
      simpa using hl.symm
    rw [this]
    exact recentStrings_le_20 st.conversations s
  · intro hnone
    simp [recentStrings, hnone]

theorem claim_recent_read_witness :
    (getConversationHistory envDemo "s1" St.init).1 =
      Except.ok (((historyIn St.init.conversations "s1").drop
        ((historyIn St.init.conversations "s1").length - 20)).map fmtTurn) ∧
    (∀ l, (getConversationHistory envDemo "s1" St.init).1 = Except.ok l → l.length ≤ 20) ∧
    (findOneConv St.init.conversations "s1" = none →
      (getConversationHistory envDemo "s1" St.init).1 = Except.ok []) :=
  claim_recent_read envDemo "s1" St.init rfl

end Bot

namespace Bot

/-- C5: N messages leave exactly 2N turns, Human then Bot per message, in order. -/
theorem claim_history_2N :
    ∀ env s bodies, (∀ n, env.storageOk n = true) →
      ∃ replies : List String, replies.length = bodies.length ∧
        (historyIn (processAll env s bodies St.init).conversations s).length =
          2 * bodies.length ∧
        (historyIn (processAll env s bodies St.init).conversations s).map roleMsg =
          turnPattern bodies replies := by
  intro env s bodies hok
  obtain ⟨replies, hlen, hmap⟩ := processAll_history env s bodies St.init hok
  have hinit : historyIn St.init.conversations s = [] := rfl
  rw [hinit] at hmap
  simp only [List.map_nil, List.nil_append] at hmap
  refine ⟨replies, hlen, ?_, hmap⟩
  have : ((historyIn (processAll env s bodies St.init).conversations s).map roleMsg).length =
      (turnPattern bodies replies).length := by rw [hmap]
  rw [List.length_map, turnPattern_length bodies replies hlen] at this
  exact this

theorem claim_history_2N_witness :
    ∃ replies : List String, replies.length = (["hi", "yo"] : List String).length ∧
      (historyIn (processAll envDemo "s1" ["hi", "yo"] St.init).conversations "s1").length =
        2 * (["hi", "yo"] : List String).length ∧
      (historyIn (processAll envDemo "s1" ["hi", "yo"] St.init).conversations "s1").map roleMsg =
        turnPattern ["hi", "yo"] replies :=
  claim_history_2N envDemo "s1" ["hi", "yo"] (fun _ => rfl)

/-- C7: get-or-create semantics and first/second message entity creation. -/
theorem claim_profile_getOrCreate :
    (∀ s, (newProfile s).preferences = [] ∧ (newProfile s).favoriteResponses = []) ∧
    (∀ env s st u, env.storageOk st.opCount = true →
      findOneUser st.users s = some u →
      getUserProfile env s st = (Except.ok u,
        ⟨st.users, st.conversations, st.trace ++ [Event.findUser s],
         st.opCount + 1, st.clock⟩)) ∧
    (∀ env s st, env.storageOk st.opCount = true → env.storageOk (st.opCount + 1) = true →
      findOneUser st.users s = none →
      getUserProfile env s st = (Except.ok (newProfile s),
        ⟨st.users ++ [newProfile s], st.conversations,
         st.trace ++ [Event.findUser s, Event.insertUser s], st.opCount + 2, st.clock⟩)) ∧
    (∀ env s b b2, (∀ n, env.storageOk n = true) →
      (profilesFor (handleMessage env s b St.init).2.users s).length = 1 ∧
      (convsFor (handleMessage env s b St.init).2.conversations s).length = 1 ∧
      (profilesFor (handleMessage env s b2 (handleMessage env s b St.init).2).2.users s).length
        = 1 ∧
      (convsFor
        (handleMessage env s b2 (handleMessage env s b St.init).2).2.conversations s).length
        = 1) := by
  refine ⟨fun s => ⟨rfl, rfl⟩, ?_, ?_, ?_⟩
  · intro env s st u hok hf
    exact getUserProfile_found env s st u hok hf
  · intro env s st hok hok2 hf
    exact getUserProfile_new env s st hok hok2 hf
  · intro env s b b2 hok
    obtain ⟨r1, hres1, hu1, hc1, hcl1⟩ := handle_ok_shape env s b St.init hok
    obtain ⟨r2, hres2, hu2, hc2, hcl2⟩ :=
      handle_ok_shape env s b2 (handleMessage env s b St.init).2 hok
    refine ⟨?_, ?_, ?_, ?_⟩
    · rw [hu1]
      simp [usersAfter, findOneUser, profilesFor, newProfile, St.init]
    · rw [hc1]
      simp [pushTurnConv, convsFor, St.init]
    · rw [hu2, hu1]
      simp [usersAfter, findOneUser, profilesFor, newProfile, St.init]
    · rw [hc2, hc1]
      simp [pushTurnConv, convsFor, St.init]

theorem claim_profile_getOrCreate_witness :
    (profilesFor (handleMessage envDemo "s1" "a" St.init).2.users "s1").length = 1 ∧
    (convsFor (handleMessage envDemo "s1" "a" St.init).2.conversations "s1").length = 1 ∧
    (profilesFor
      (handleMessage envDemo "s1" "b" (handleMessage envDemo "s1" "a" St.init).2).2.users
      "s1").length = 1 ∧
    (convsFor
      (handleMessage envDemo "s1" "b"
        (handleMessage envDemo "s1" "a" St.init).2).2.conversations "s1").length = 1 :=
  claim_profile_getOrCreate.2.2.2 envDemo "s1" "a" "b" (fun _ => rfl)

/-- C9: append-only stores. -/
theorem claim_append_only :
    (∀ env s m r st, Preserves st (updateConversationHistory env s m r st).2) ∧
    (∀ env s st, Preserves st (getUserProfile env s st).2) ∧
    (∀ env s st, Preserves st (getConversationHistory env s st).2) ∧
    (∀ env s m st, Preserves st (getBotResponse env s m st).2) ∧
    (∀ env s b st, Preserves st (handleMessage env s b st).2) := by
  refine ⟨?_, ?_, ?_, ?_, ?_⟩
  · intro env s m r st
    exact pres_upd rfl
  · intro env s st
    exact pres_gup rfl
  · intro env s st
    exact pres_gch rfl
  · intro env s m st
    exact pres_gbr env s m st
  · intro env s b st
    exact pres_handle env s b st

/-- C10: the latest human message occurs at least twice in the gateway context. -/
theorem claim_prompt_duplication :
    ∀ env s b st, (∀ n, env.storageOk n = true) →
      jsToLower (jsTrim b) ≠ "hi" →
      strIncludes (jsToLower (jsTrim b)) "who are you" = false →
      strIncludes (jsToLower (jsTrim b)) "tell me more about patrick" = false →
      Event.llmCall (mkPrompt (ctxOf st.conversations s (jsTrim b) st.clock)) ∈
        (handleMessage env s b st).2.trace ∧
      2 ≤ (ctxOf st.conversations s (jsTrim b) st.clock).count ("Human: " ++ jsTrim b) := by
  intro env s b st hok h1 h2 h3
  refine ⟨?_, ctxOf_count st.conversations s (jsTrim b) st.clock⟩
  cases hllm : env.llm (mkPrompt (ctxOf st.conversations s (jsTrim b) st.clock)) with
  | ok raw =>
      rw [handle_missOk env s b st raw hok h1 h2 h3 hllm]
      simp
  | error e2 =>
      rw [handle_missErr env s b st e2 hok h1 h2 h3 hllm]
      simp

theorem claim_prompt_duplication_witness :
    Event.llmCall
        (mkPrompt (ctxOf St.init.conversations "s1" (jsTrim "hello hello") St.init.clock)) ∈
      (handleMessage envDemo "s1" "hello hello" St.init).2.trace ∧
    2 ≤ (ctxOf St.init.conversations "s1" (jsTrim "hello hello") St.init.clock).count
      ("Human: " ++ jsTrim "hello hello") :=
  claim_prompt_duplication envDemo "s1" "hello hello" St.init (fun _ => rfl) (by decide)
    (by decide) (by decide)

end Bot

namespace Bot

/-- C1 counterexample: on the rule-hit input "hi", the resolver still performs the
history-context fetch, and the Human turn is persisted before the profile load. -/
theorem claim_resolver_order_counterexample :
    (handleMessage envDemo "s1" "hi" St.init).1 = Except.ok greetingReply ∧
    Event.findConv "s1" ∈ (handleMessage envDemo "s1" "hi" St.init).2.trace ∧
    (handleMessage envDemo "s1" "hi" St.init).2.trace.indexOf
        (Event.pushTurn "s1" "hi" Role.Human) <
      (handleMessage envDemo "s1" "hi" St.init).2.trace.indexOf (Event.findUser "s1") ∧
    (handleMessage envDemo "s1" "hi" St.init).2.trace.all (fun e => !isLlmCall e) = true := by
  decide

/-- C1 amended: Human turn first, then profile load, then an unconditional
history fetch, then the rules; the gateway only on rule miss. -/
theorem claim_resolver_order :
    ∀ env s b st, (∀ n, env.storageOk n = true) → st.trace = [] →
      ∃ mid rest,
        (handleMessage env s b st).2.trace =
          [recvLog s (jsTrim b), Event.pushTurn s (jsTrim b) Role.Human] ++ mid ++
            [Event.findConv s] ++ rest ∧
        (mid = [Event.findUser s] ∨ mid = [Event.findUser s, Event.insertUser s]) ∧
        ((∃ p, Event.llmCall p ∈ rest) ↔ rulesMatch (jsTrim b) = none) := by
  intro env s b st hok htr
  have hmid : profEvents st.users s = [Event.findUser s] ∨
      profEvents st.users s = [Event.findUser s, Event.insertUser s] := by
    cases hfu : findOneUser st.users s <;> simp [profEvents, hfu]
  by_cases h1 : jsToLower (jsTrim b) = "hi"
  · refine ⟨profEvents st.users s,
      [Event.pushTurn s greetingReply Role.Bot, Event.reply s greetingReply,
       sentLog s greetingReply], ?_, hmid, ?_⟩
    · rw [handle_hi env s b st hok h1]
      simp [htr]
    · simp [rulesMatch, h1, sentLog]
  · by_cases h2 : strIncludes (jsToLower (jsTrim b)) "who are you" = true
    · refine ⟨profEvents st.users s,
        [Event.pushTurn s whoReply Role.Bot, Event.reply s whoReply, sentLog s whoReply],
        ?_, hmid, ?_⟩
      · rw [handle_who env s b st hok h1 h2]
        simp [htr]
      · simp [rulesMatch, h1, h2, sentLog]
    · rw [Bool.not_eq_true] at h2
      by_cases h3 : strIncludes (jsToLower (jsTrim b)) "tell me more about patrick" = true
      · refine ⟨profEvents st.users s,
          [Event.pushTurn s patrickReply Role.Bot, Event.reply s patrickReply,
           sentLog s patrickReply], ?_, hmid, ?_⟩
        · rw [handle_patrick env s b st hok h1 h2 h3]
          simp [htr]
        · simp [rulesMatch, h1, h2, h3, sentLog]
      · rw [Bool.not_eq_true] at h3
        cases hllm : env.llm (mkPrompt (ctxOf st.conversations s (jsTrim b) st.clock)) with
        | ok raw =>
            refine ⟨profEvents st.users s,
              [Event.llmCall (mkPrompt (ctxOf st.conversations s (jsTrim b) st.clock)),
               Event.pushTurn s (jsTrim raw) Role.Bot, Event.reply s (jsTrim raw),
               sentLog s (jsTrim raw)], ?_, hmid, ?_⟩
            · rw [handle_missOk env s b st raw hok h1 h2 h3 hllm]
              simp [htr]
            · simp [rulesMatch, h1, h2, h3, sentLog]
        | error e2 =>
            refine ⟨profEvents st.users s,
              [Event.llmCall (mkPrompt (ctxOf st.conversations s (jsTrim b) st.clock)),
               Event.logError ("OpenAI API error: " ++ e2),
               Event.pushTurn s fallbackReply Role.Bot, Event.reply s fallbackReply,
               sentLog s fallbackReply], ?_, hmid, ?_⟩
            · rw [handle_missErr env s b st e2 hok h1 h2 h3 hllm]
              simp [htr]
            · simp [rulesMatch, h1, h2, h3, sentLog]

theorem claim_resolver_order_witness :
    ∃ mid rest,
      (handleMessage envDemo "s1" "hello there" St.init).2.trace =
        [recvLog "s1" (jsTrim "hello there"),
         Event.pushTurn "s1" (jsTrim "hello there") Role.Human] ++ mid ++
          [Event.findConv "s1"] ++ rest ∧
      (mid = [Event.findUser "s1"] ∨
        mid = [Event.findUser "s1", Event.insertUser "s1"]) ∧
      ((∃ p, Event.llmCall p ∈ rest) ↔ rulesMatch (jsTrim "hello there") = none) :=
  claim_resolver_order envDemo "s1" "hello there" St.init (fun _ => rfl) rfl

/-- C8 counterexample: a failing Human-turn store write aborts the turn with no
reply, and nothing about the failure is logged. -/
theorem claim_storage_abort_counterexample :
    (handleMessage envStoreDown "s1" "hello" St.init).1 = Except.error () ∧
    (handleMessage envStoreDown "s1" "hello" St.init).2.trace =
      [recvLog "s1" "hello", Event.pushTurn "s1" "hello" Role.Human] ∧
    (handleMessage envStoreDown "s1" "hello" St.init).2.trace.all
      (fun e => !isErrLog e && !isReplyEv e) = true := by
  refine ⟨?_, ?_, ?_⟩ <;> decide

/-- C8 amended: a storage failure aborts the turn with no reply event, every
operation attempted at most once, and no log line for the storage failure. -/
theorem claim_storage_abort :
    ∀ env s b st, st.trace = [] →
      (handleMessage env s b st).1 = Except.error () →
      ((∀ q r, Event.reply q r ∉ (handleMessage env s b st).2.trace) ∧
       (∀ t, Event.logError t ∈ (handleMessage env s b st).2.trace →
          ∃ e, t = "OpenAI API error: " ++ e) ∧
       (handleMessage env s b st).2.trace.Nodup) :=
  fun env s b st htr => handle_err_trace env s b st htr

theorem claim_storage_abort_witness :
    (∀ q r, Event.reply q r ∉ (handleMessage envStoreDown "s1" "x" St.init).2.trace) ∧
    (∀ t, Event.logError t ∈ (handleMessage envStoreDown "s1" "x" St.init).2.trace →
       ∃ e, t = "OpenAI API error: " ++ e) ∧
    (handleMessage envStoreDown "s1" "x" St.init).2.trace.Nodup :=
  claim_storage_abort envStoreDown "s1" "x" St.init rfl (by decide)

end Bot
